import Mathlib

/-!
Shallow embedding of the heroku/worker-monitor supervision code.

The repository ships two deployment variants:
* the current pair `WorkerMonitor` (src/lib/worker-monitor.js, first
  document) and `WorkerManager` (src/lib/worker-manager.js, first
  document), exchanging the "workerExceededMemory" message, and
* the legacy pair `Monitor` (src/lib/monitor.js) and `Killer`
  (src/lib/worker-manager.js, second document), exchanging the
  "exceedsMemoryLimit" message.

Each constructor and method below is translated statement by statement from
the JavaScript source.  Timers (`setInterval` handles) are modelled by a
Boolean armed-flag, `setTimeout`/`clearTimeout` by an `Option` holding the
delay, and the side effects of a method by an explicit list of `Event`s in
the order the statements execute.
-/

namespace WorkerMonitorModel

/-- A JavaScript option value as the configuration surface uses it:
`undefined` (field absent), `null` (explicitly null), or a number. -/
inductive JsVal where
  | undefined
  | null
  | num (n : Int)
deriving DecidableEq

/-- JavaScript truthiness restricted to the values above:
`undefined`, `null` and `0` are falsy, every other number is truthy. -/
def JsVal.truthy : JsVal → Bool
  | .num n => n != 0
  | _ => false

/-- Models the JS idiom `v || d` for a numeric option with numeric
default `d`: the value itself when truthy, otherwise `d`. -/
def jsOrDefault (v : JsVal) (d : Int) : Int :=
  match v with
  | .num n => if n ≠ 0 then n else d
  | _ => d

/-- Models the JS idiom `v === undefined ? d : v` (worker-monitor.js
lines 53 and 64): only an absent field gets the default, an explicit
`null` is kept. -/
def jsIfUndefined (v : JsVal) (d : Int) : JsVal :=
  match v with
  | .undefined => .num d
  | x => x

/-- The options object accepted by the constructors; an omitted field
is `undefined`. -/
structure Options where
  disconnectTimeout : JsVal := .undefined
  logPeriod : JsVal := .undefined
  monitorPeriod : JsVal := .undefined
  memoryLimit : JsVal := .undefined
deriving DecidableEq

/-- Which code site issued a `worker.kill` call. -/
inductive KillOrigin where
  /-- `WorkerMonitor.prototype.killWorker` / `Killer.prototype.killWorker`:
  the forced kill run by the expired kill-timeout. -/
  | killWorkerTimeout
  /-- The disconnect handler of
  `WorkerManager.prototype.killAndForkOnDisconnect`. -/
  | managerOnDisconnect
deriving DecidableEq

/-- Observable side effects of the JavaScript methods, in statement order. -/
inductive Event where
  /-- The periodic memory-usage log record (the `log` method). -/
  | logMemoryUsage
  /-- `logfmt.log` with `count#worker-exceeded-memory`. -/
  | logExceededMemory
  /-- `logfmt.log` with `count#worker-disconnect-failed`. -/
  | logDisconnectFailed
  /-- `logfmt.log` with `count#worker-disconnected-and-killed`. -/
  | logDisconnectedAndKilled
  /-- `process.send(tag)`. -/
  | sendMessage (tag : String)
  /-- `worker.disconnect()`. -/
  | disconnectRequest
  /-- `setTimeout(..., delay)` arming the kill-timeout; `refed` records
  whether the timer still holds the event loop open (`unref()` clears it). -/
  | armKillTimeout (delay : Int) (refed : Bool)
  /-- `clearTimeout(killTimeout)`. -/
  | clearKillTimeout
  /-- `clearInterval(this.monitorInterval)`. -/
  | clearMonitorInterval
  /-- `clearInterval(this.logInterval)`. -/
  | clearLogInterval
  /-- `worker.kill(signal)` issued from `origin`. -/
  | kill (origin : KillOrigin) (signal : String)
  /-- `cluster.fork()`. -/
  | fork
deriving DecidableEq

/-- Is the event the worker-to-manager breach notification
(`process.send`, either message tag)? -/
def Event.isBreachSend : Event → Bool
  | .sendMessage _ => true
  | _ => false

/-- Is the event a `worker.kill` from the expired kill-timeout
(`killWorker`)? -/
def Event.isForcedKill : Event → Bool
  | .kill .killWorkerTimeout _ => true
  | _ => false

/-- Is the event a `worker.kill` from the manager's disconnect handler? -/
def Event.isManagerKill : Event → Bool
  | .kill .managerOnDisconnect _ => true
  | _ => false

/-- Is the event any `worker.kill` at all? -/
def Event.isKillEvent : Event → Bool
  | .kill _ _ => true
  | _ => false

/-- Is the event a `worker.kill` delivering SIGINT (from either site)? -/
def Event.isSigintKill : Event → Bool
  | .kill _ s => s = "SIGINT"
  | _ => false

/-- Is the event the `count#worker-disconnect-failed` log record? -/
def Event.isDisconnectFailedLog : Event → Bool
  | .logDisconnectFailed => true
  | _ => false

/-- Is the event a `cluster.fork()`? -/
def Event.isFork : Event → Bool
  | .fork => true
  | _ => false

/-- Is the event the `count#worker-disconnected-and-killed` log record? -/
def Event.isKilledLog : Event → Bool
  | .logDisconnectedAndKilled => true
  | _ => false

/-- `clearInterval` on an interval handle modelled as an armed-flag: the
handle is disarmed, whether or not it still was armed (clearing an
already-cleared timer is a no-op in Node). -/
def clearInterval (_armed : Bool) : Bool := false

/-- State of the kill-timeout and of the `'disconnect'` listener that
cancels it, as set up by `disconnectWorker` (either variant). -/
structure Episode where
  /-- `some delay` while the kill-timeout is armed, `none` once cleared. -/
  killTimeout : Option Int
  /-- Whether the armed timer keeps the event loop alive
  (`unref()` makes this `false`). -/
  killTimeoutRefed : Bool
  /-- Whether the cancel listener was registered as one-shot
  (`worker.once`) rather than persistent (`worker.on`). -/
  cancelListenerOnce : Bool
  /-- Whether the cancel listener is currently registered. -/
  cancelListenerActive : Bool
deriving DecidableEq

/-- Deliver one `'disconnect'` event to the episode's cancel listener:
it runs `clearTimeout(killTimeout)` and, if it was registered with
`once`, is removed; a listener registered with `on` stays registered. -/
def Episode.deliverDisconnect (e : Episode) : Episode :=
  if e.cancelListenerActive then
    { e with killTimeout := none
             cancelListenerActive := !e.cancelListenerOnce }
  else
    e

/-- `WorkerMonitor` (src/lib/worker-monitor.js lines 23-99, the variant
whose period options honor an explicit `null`). -/
structure WorkerMonitor where
  /-- `options.disconnectTimeout || 5000`. -/
  disconnectTimeout : Int
  /-- `options.logPeriod === undefined ? 10000 : options.logPeriod`. -/
  logPeriod : JsVal
  /-- `options.monitorPeriod === undefined ? 10000 : options.monitorPeriod`. -/
  monitorPeriod : JsVal
  /-- `options.memoryLimit || 220000000`. -/
  memoryLimit : Int
  /-- Armed-flag of `this.monitorInterval`. -/
  monitorInterval : Bool
  /-- Armed-flag of `this.logInterval`. -/
  logInterval : Bool
deriving DecidableEq

/-- `getLogInterval` / `getMonitorInterval` (worker-monitor.js lines
161-189): `setInterval` unless the period is `null`, in which case no
interval is created. -/
def setIntervalUnlessNull (period : JsVal) : Bool :=
  if period = JsVal.null then false else true

/-- The `WorkerMonitor` constructor (worker-monitor.js lines 23-99). -/
def WorkerMonitor.create (options : Options) : WorkerMonitor :=
  let logPeriod := jsIfUndefined options.logPeriod 10000
  let monitorPeriod := jsIfUndefined options.monitorPeriod 10000
  { disconnectTimeout := jsOrDefault options.disconnectTimeout 5000
    logPeriod := logPeriod
    monitorPeriod := monitorPeriod
    memoryLimit := jsOrDefault options.memoryLimit 220000000
    monitorInterval := setIntervalUnlessNull monitorPeriod
    logInterval := setIntervalUnlessNull logPeriod }

/-- `WorkerMonitor.prototype.killWorker` (worker-monitor.js lines
139-149): log `count#worker-disconnect-failed`, then
`worker.kill('SIGINT')`. -/
def WorkerMonitor.killWorker : List Event :=
  [Event.logDisconnectFailed, Event.kill .killWorkerTimeout "SIGINT"]

/-- `WorkerMonitor.prototype.disconnectWorker` (worker-monitor.js lines
110-131): log `count#worker-exceeded-memory`, send
`'workerExceededMemory'`, request disconnect, arm the kill-timeout with
`disconnectTimeout`, `unref()` it, and register the cancel listener with
`worker.on('disconnect', ...)`. -/
def WorkerMonitor.disconnectWorker (m : WorkerMonitor) : Episode × List Event :=
  ( { killTimeout := some m.disconnectTimeout
      killTimeoutRefed := false
      cancelListenerOnce := false
      cancelListenerActive := true }
  , [ Event.logExceededMemory
    , Event.sendMessage "workerExceededMemory"
    , Event.disconnectRequest
    , Event.armKillTimeout m.disconnectTimeout false ] )

/-- `WorkerMonitor.prototype.monitor` (worker-monitor.js lines 216-224):
when the sampled `rss` strictly exceeds `memoryLimit`, clear the monitor
interval, clear the log interval, then run `disconnectWorker`;
otherwise do nothing. -/
def WorkerMonitor.monitor (m : WorkerMonitor) (rss : Int) :
    WorkerMonitor × List Event :=
  if rss > m.memoryLimit then
    let cleared := { m with monitorInterval := clearInterval m.monitorInterval
                            logInterval := clearInterval m.logInterval }
    (cleared, Event.clearMonitorInterval :: Event.clearLogInterval ::
      cleared.disconnectWorker.2)
  else
    (m, [])

/-- Which of the worker's two periodic tasks a timer tick drives. -/
inductive TickKind where
  | log
  | monitor
deriving DecidableEq

/-- Drive the worker through a schedule of timer ticks, each carrying the
process RSS sampled at that moment.  A tick only runs its task's callback
while the corresponding interval is still armed (`setInterval` fires no
further callbacks once `clearInterval` ran). -/
def runWorker (m : WorkerMonitor) : List (TickKind × Int) → WorkerMonitor × List Event
  | [] => (m, [])
  | (TickKind.log, _) :: rest =>
    if m.logInterval then
      ((runWorker m rest).1, Event.logMemoryUsage :: (runWorker m rest).2)
    else
      runWorker m rest
  | (TickKind.monitor, rss) :: rest =>
    if m.monitorInterval then
      ((runWorker (m.monitor rss).1 rest).1,
       (m.monitor rss).2 ++ (runWorker (m.monitor rss).1 rest).2)
    else
      runWorker m rest

/-- The legacy `Monitor` (src/lib/monitor.js lines 21-29): every option
defaults through `||`, so an explicit `null` period also falls back to
the default, and both intervals are always created. -/
structure Monitor where
  /-- `options.logPeriod || 10000`. -/
  logPeriod : Int
  /-- `options.monitorPeriod || 10000`. -/
  monitorPeriod : Int
  /-- `options.memoryLimit || 220000000`. -/
  memoryLimit : Int
  /-- Armed-flag of `this.monitorIntervalID` (`setInterval`, unconditional). -/
  monitorIntervalID : Bool
  /-- Armed-flag of `this.logIntervalID` (`setInterval`, unconditional). -/
  logIntervalID : Bool
deriving DecidableEq

/-- The legacy `Monitor` constructor (monitor.js lines 21-29). -/
def Monitor.create (options : Options) : Monitor :=
  { logPeriod := jsOrDefault options.logPeriod 10000
    monitorPeriod := jsOrDefault options.monitorPeriod 10000
    memoryLimit := jsOrDefault options.memoryLimit 220000000
    monitorIntervalID := true
    logIntervalID := true }

/-- `Monitor.prototype.monitor` (monitor.js lines 78-86): on a strict
breach, clear both intervals and send `'exceedsMemoryLimit'`. -/
def Monitor.monitor (m : Monitor) (rss : Int) : Monitor × List Event :=
  if rss > m.memoryLimit then
    ({ m with monitorIntervalID := clearInterval m.monitorIntervalID
              logIntervalID := clearInterval m.logIntervalID },
     [Event.clearMonitorInterval, Event.clearLogInterval,
      Event.sendMessage "exceedsMemoryLimit"])
  else
    (m, [])

/-- The legacy manager-side `Killer` (src/lib/worker-manager.js second
document, lines 83-92): holds `options.disconnectTimeout || 5000` and
runs `disconnectWorker` on each `'exceedsMemoryLimit'` message. -/
structure Killer where
  disconnectTimeout : Int
deriving DecidableEq

/-- The `Killer` constructor's option handling. -/
def Killer.create (options : Options) : Killer :=
  { disconnectTimeout := jsOrDefault options.disconnectTimeout 5000 }

/-- `Killer.prototype.killWorker` (worker-manager.js lines 125-135). -/
def Killer.killWorker : List Event :=
  [Event.logDisconnectFailed, Event.kill .killWorkerTimeout "SIGINT"]

/-- `Killer.prototype.disconnectWorker` (worker-manager.js lines
100-118): log `count#worker-exceeded-memory`, request disconnect, arm
the kill-timeout — note: no `unref()` call here, unlike the
`WorkerMonitor` variant — and register the cancel listener with
`worker.on('disconnect', ...)`. -/
def Killer.disconnectWorker (k : Killer) : Episode × List Event :=
  ( { killTimeout := some k.disconnectTimeout
      killTimeoutRefed := true
      cancelListenerOnce := false
      cancelListenerActive := true }
  , [ Event.logExceededMemory
    , Event.disconnectRequest
    , Event.armKillTimeout k.disconnectTimeout true ] )

/-- One breach episode of the legacy deployment, run by the manager-side
`Killer` after it received `'exceedsMemoryLimit'`.  `disconnectAt` is the
time (measured from the disconnect request) at which the worker's
disconnect-completion event arrives, or `none` if it never does.  Event-loop
semantics: a `setTimeout` armed with delay `d` fires at time `d` unless a
callback running strictly earlier cleared it, so the cancel listener wins
exactly when `disconnectAt < d`; a `clearTimeout` after the timer fired is
a no-op. -/
def killerEpisode (k : Killer) (disconnectAt : Option Int) : List Event :=
  let d := k.disconnectTimeout
  let pre := k.disconnectWorker.2
  match disconnectAt with
  | none => pre ++ Killer.killWorker
  | some t =>
    if t < d then
      pre ++ [Event.clearKillTimeout]
    else
      pre ++ Killer.killWorker ++ [Event.clearKillTimeout]

/-- The body of the `'disconnect'` handler registered by
`WorkerManager.prototype.killAndForkOnDisconnect` (worker-manager.js lines
43-49): `worker.kill('SIGINT')`, then `logKilledWorker` (the
`count#worker-disconnected-and-killed` record), then `cluster.fork()`. -/
def killAndForkHandler : List Event :=
  [Event.kill .managerOnDisconnect "SIGINT",
   Event.logDisconnectedAndKilled, Event.fork]

/-- One breach episode of the current deployment: the worker's
`WorkerMonitor` has just run `disconnectWorker` (arming its kill-timeout
and sending `'workerExceededMemory'`), and the manager's `WorkerManager`,
having received that message — message delivery from one worker is FIFO,
so it arrives before the disconnect event — has run
`killAndForkOnDisconnect`, registering its own `'disconnect'` handler.
Timer semantics as in `killerEpisode`; when the disconnect-completion
event arrives, both the worker-side cancel listener and the manager-side
kill-and-fork handler run. -/
def managedEpisode (m : WorkerMonitor) (disconnectAt : Option Int) : List Event :=
  let d := m.disconnectTimeout
  let pre := m.disconnectWorker.2
  match disconnectAt with
  | none => pre ++ WorkerMonitor.killWorker
  | some t =>
    if t < d then
      pre ++ [Event.clearKillTimeout] ++ killAndForkHandler
    else
      pre ++ WorkerMonitor.killWorker ++ [Event.clearKillTimeout] ++ killAndForkHandler

/-- An input observed by the `WorkerManager`'s listeners for one worker:
a message from that worker, or that worker's `'disconnect'` event. -/
inductive ManagerInput where
  | message (tag : String)
  | disconnectEvent
deriving DecidableEq

/-- Is the input the `'workerExceededMemory'` breach message? -/
def ManagerInput.isBreachMsg : ManagerInput → Bool
  | .message tag => tag = "workerExceededMemory"
  | _ => false

/-- Is the input the worker's `'disconnect'` event? -/
def ManagerInput.isDisconnect : ManagerInput → Bool
  | .disconnectEvent => true
  | _ => false

/-- Manager-side state for one worker: how many `'disconnect'` handlers
`killAndForkOnDisconnect` has registered on it so far. -/
structure ManagerState where
  disconnectHandlers : Nat
deriving DecidableEq

/-- One input processed by the `WorkerManager`'s listeners
(worker-manager.js lines 27-49): `setupWorkerMonitor`'s message listener
calls `killAndForkOnDisconnect` — registering one more disconnect
handler — exactly on `'workerExceededMemory'`; a `'disconnect'` event
runs every handler registered so far. -/
def WorkerManager.step (s : ManagerState) : ManagerInput → ManagerState × List Event
  | .message tag =>
    if tag = "workerExceededMemory" then
      ({ disconnectHandlers := s.disconnectHandlers + 1 }, [])
    else
      (s, [])
  | .disconnectEvent =>
    (s, (List.replicate s.disconnectHandlers killAndForkHandler).flatten)

/-- Run the `WorkerManager`'s listeners over a sequence of inputs. -/
def WorkerManager.run (s : ManagerState) : List ManagerInput → ManagerState × List Event
  | [] => (s, [])
  | i :: is =>
    ((WorkerManager.run (WorkerManager.step s i).1 is).1,
     (WorkerManager.step s i).2 ++ (WorkerManager.run (WorkerManager.step s i).1 is).2)

/-- Joint state of the legacy deployment for one worker: the worker-side
`Monitor`, the breach messages sent but not yet delivered to the
manager-side `Killer`, and the kill-timeouts currently armed (neither
fired nor cleared). -/
structure SysState where
  mon : Monitor
  inFlight : Nat
  armedTimeouts : Nat
deriving DecidableEq

/-- One step of the supervision protocol.  A monitor tick runs
`Monitor.monitor` (only while its interval is armed) and puts each
breach notification it sends in flight; delivering a breach message runs
`Killer.disconnectWorker`, which arms one kill-timeout; an armed timeout
may fire (`killWorker`); the worker's `'disconnect'` event runs every
registered cancel listener, clearing whatever is still armed. -/
inductive SysStep : SysState → SysState → Prop where
  | monitorTick (s : SysState) (rss : Int)
      (h : s.mon.monitorIntervalID = true) :
      SysStep s { mon := (s.mon.monitor rss).1
                  inFlight := s.inFlight + (s.mon.monitor rss).2.countP Event.isBreachSend
                  armedTimeouts := s.armedTimeouts }
  | deliverBreach (s : SysState) (h : 0 < s.inFlight) :
      SysStep s { mon := s.mon
                  inFlight := s.inFlight - 1
                  armedTimeouts := s.armedTimeouts + 1 }
  | timeoutFires (s : SysState) (h : 0 < s.armedTimeouts) :
      SysStep s { mon := s.mon
                  inFlight := s.inFlight
                  armedTimeouts := s.armedTimeouts - 1 }
  | disconnectEvent (s : SysState) :
      SysStep s { mon := s.mon
                  inFlight := s.inFlight
                  armedTimeouts := 0 }

/-- The states the supervision protocol can reach: a freshly constructed
worker-side `Monitor` with nothing in flight and nothing armed, closed
under protocol steps. -/
inductive SysReachable : SysState → Prop where
  | start (options : Options) :
      SysReachable { mon := Monitor.create options, inFlight := 0, armedTimeouts := 0 }
  | step {s t : SysState} (hs : SysReachable s) (hst : SysStep s t) :
      SysReachable t

/-- Inductive invariant of the protocol: while the worker's monitor
interval is still armed no breach was ever signalled, and altogether at
most one breach is in flight or armed as a kill-timeout. -/
def SysInv (s : SysState) : Prop :=
  (s.mon.monitorIntervalID = true → s.inFlight = 0 ∧ s.armedTimeouts = 0) ∧
  s.inFlight + s.armedTimeouts ≤ 1

/-! ### Helper lemmas about the worker-side monitor loop -/

theorem monitor_no_breach (m : WorkerMonitor) (rss : Int)
    (h : ¬ m.memoryLimit < rss) : m.monitor rss = (m, []) := by
  simp [WorkerMonitor.monitor, h]

theorem monitor_breach_intervals (m : WorkerMonitor) (rss : Int)
    (h : m.memoryLimit < rss) :
    (m.monitor rss).1.monitorInterval = false ∧
      (m.monitor rss).1.logInterval = false := by
  simp [WorkerMonitor.monitor, h, clearInterval]

theorem monitor_breach_events (m : WorkerMonitor) (rss : Int)
    (h : m.memoryLimit < rss) :
    (m.monitor rss).2 =
      Event.clearMonitorInterval :: Event.clearLogInterval ::
        (m.monitor rss).1.disconnectWorker.2 := by
  simp [WorkerMonitor.monitor, h]

theorem monitor_breach_sendCount (m : WorkerMonitor) (rss : Int)
    (h : m.memoryLimit < rss) :
    (m.monitor rss).2.countP Event.isBreachSend = 1 := by
  simp [WorkerMonitor.monitor, h, WorkerMonitor.disconnectWorker,
    List.countP_cons, Event.isBreachSend]

theorem runWorker_inactive (m : WorkerMonitor) (ticks : List (TickKind × Int))
    (hm : m.monitorInterval = false) (hl : m.logInterval = false) :
    runWorker m ticks = (m, []) := by
  induction ticks with
  | nil => rfl
  | cons t rest ih =>
    obtain ⟨k, rss⟩ := t
    cases k with
    | log => simp [runWorker, hl, ih]
    | monitor => simp [runWorker, hm, ih]

theorem runWorker_monitor_inactive_no_breach (m : WorkerMonitor)
    (ticks : List (TickKind × Int)) (hm : m.monitorInterval = false) :
    (runWorker m ticks).2.countP Event.isBreachSend = 0 := by
  induction ticks with
  | nil => simp [runWorker]
  | cons t rest ih =>
    obtain ⟨k, rss⟩ := t
    cases k with
    | log =>
      by_cases hl : m.logInterval
      · simp [runWorker, hl, List.countP_cons, Event.isBreachSend, ih]
      · simp [runWorker, hl, ih]
    | monitor => simp [runWorker, hm, ih]

theorem runWorker_breachSend_le_one (ticks : List (TickKind × Int))
    (m : WorkerMonitor) :
    (runWorker m ticks).2.countP Event.isBreachSend ≤ 1 := by
  induction ticks generalizing m with
  | nil => simp [runWorker]
  | cons t rest ih =>
    obtain ⟨k, rss⟩ := t
    cases k with
    | log =>
      by_cases hl : m.logInterval
      · simpa [runWorker, hl, List.countP_cons, Event.isBreachSend] using ih m
      · simpa [runWorker, hl] using ih m
    | monitor =>
      by_cases hm : m.monitorInterval
      · by_cases hb : m.memoryLimit < rss
        · have hint := monitor_breach_intervals m rss hb
          have hrest := runWorker_inactive (m.monitor rss).1 rest hint.1 hint.2
          simp [runWorker, hm, hrest, List.countP_append,
            monitor_breach_sendCount m rss hb]
        · simpa [runWorker, hm, monitor_no_breach m rss hb] using ih m
      · simpa [runWorker, hm] using ih m

/-- C1: for every sampled RSS value `v`, the monitor tick starts breach
handling (its side-effect list is non-empty) iff `v` is strictly greater
than the configured `memoryLimit`; in particular a tick sampled exactly
at `memoryLimit` does nothing.  Shown for `WorkerMonitor.monitor` and for
the legacy `Monitor.monitor`. -/
theorem breach_iff_rss_gt_limit (m : WorkerMonitor) (mon : Monitor) (rss : Int) :
    ((m.monitor rss).2 ≠ [] ↔ m.memoryLimit < rss) ∧
    m.monitor m.memoryLimit = (m, []) ∧
    ((mon.monitor rss).2 ≠ [] ↔ mon.memoryLimit < rss) ∧
    mon.monitor mon.memoryLimit = (mon, []) := by
  refine ⟨?_, ?_, ?_, ?_⟩
  · by_cases h : m.memoryLimit < rss
    · simp [WorkerMonitor.monitor, h]
    · simp [WorkerMonitor.monitor, h]
  · simp [WorkerMonitor.monitor]
  · by_cases h : mon.memoryLimit < rss
    · simp [Monitor.monitor, h]
    · simp [Monitor.monitor, h]
  · simp [Monitor.monitor]

/-- C4: after the monitor task detects a breach, neither the log task nor
the monitor task ever fires again: the breach tick leaves both intervals
cleared, its side-effect list cancels both intervals strictly before the
breach notification is sent (the two clears head the list, the send
happens inside the following `disconnectWorker` effects), cancelling an
already-cancelled interval is idempotent, any schedule run from the
post-breach state produces no further task events, and over any schedule
the worker emits at most one breach notification. -/
theorem breach_stops_all_sampling (m : WorkerMonitor) (rss : Int)
    (ticks : List (TickKind × Int)) (h : m.memoryLimit < rss) :
    ((m.monitor rss).1.monitorInterval = false ∧
      (m.monitor rss).1.logInterval = false) ∧
    (m.monitor rss).2 =
      Event.clearMonitorInterval :: Event.clearLogInterval ::
        (m.monitor rss).1.disconnectWorker.2 ∧
    (∀ b : Bool, clearInterval (clearInterval b) = clearInterval b) ∧
    runWorker (m.monitor rss).1 ticks = ((m.monitor rss).1, []) ∧
    (∀ (m0 : WorkerMonitor) (ticks0 : List (TickKind × Int)),
      (runWorker m0 ticks0).2.countP Event.isBreachSend ≤ 1) := by
  have hint := monitor_breach_intervals m rss h
  exact ⟨hint, monitor_breach_events m rss h, fun _ => rfl,
    runWorker_inactive _ ticks hint.1 hint.2,
    fun m0 ticks0 => runWorker_breachSend_le_one ticks0 m0⟩

theorem breach_stops_all_sampling_witness :
    ((((WorkerMonitor.create {}).monitor 220000001).1.monitorInterval = false ∧
      (((WorkerMonitor.create {}).monitor 220000001).1.logInterval = false)) ∧
    ((WorkerMonitor.create {}).monitor 220000001).2 =
      Event.clearMonitorInterval :: Event.clearLogInterval ::
        (((WorkerMonitor.create {}).monitor 220000001).1.disconnectWorker.2) ∧
    (∀ b : Bool, clearInterval (clearInterval b) = clearInterval b) ∧
    runWorker (((WorkerMonitor.create {}).monitor 220000001).1)
        [(TickKind.monitor, 300000000), (TickKind.log, 0)] =
      ((((WorkerMonitor.create {}).monitor 220000001).1), []) ∧
    (∀ (m0 : WorkerMonitor) (ticks0 : List (TickKind × Int)),
      (runWorker m0 ticks0).2.countP Event.isBreachSend ≤ 1)) :=
  breach_stops_all_sampling (WorkerMonitor.create {}) 220000001
    [(TickKind.monitor, 300000000), (TickKind.log, 0)] (by decide)

/-- C10: an options object whose memoryLimit is falsy (absent, null, or
the number 0) yields the default 220000000 in both constructors — a
zero-byte memory limit cannot be configured, including in the
`WorkerMonitor` constructor variant that honors an explicit null for
`logPeriod` and `monitorPeriod`. -/
theorem falsy_memory_limit_gets_default (options : Options)
    (h : options.memoryLimit.truthy = false) :
    (WorkerMonitor.create options).memoryLimit = 220000000 ∧
    (Monitor.create options).memoryLimit = 220000000 := by
  cases hv : options.memoryLimit with
  | undefined => simp [WorkerMonitor.create, Monitor.create, jsOrDefault, hv]
  | null => simp [WorkerMonitor.create, Monitor.create, jsOrDefault, hv]
  | num n =>
    have hn : n = 0 := by simpa [JsVal.truthy, hv] using h
    simp [WorkerMonitor.create, Monitor.create, jsOrDefault, hv, hn]

theorem falsy_memory_limit_gets_default_witness :
    (WorkerMonitor.create { memoryLimit := JsVal.num 0 }).memoryLimit = 220000000 ∧
    (Monitor.create { memoryLimit := JsVal.num 0 }).memoryLimit = 220000000 :=
  falsy_memory_limit_gets_default { memoryLimit := JsVal.num 0 } (by decide)

/-- C7 fails as stated on the legacy `Monitor` class (one of the claim's
cited code places): with `monitorPeriod` explicitly null the constructor
falls back through `||` to the 10000 default, the monitor interval is
started anyway, and a breach check still runs and fires. -/
theorem legacy_monitor_null_period_still_runs :
    (Monitor.create { monitorPeriod := JsVal.null }).monitorIntervalID = true ∧
    (Monitor.create { monitorPeriod := JsVal.null }).monitorPeriod = 10000 ∧
    ((Monitor.create { monitorPeriod := JsVal.null }).monitor 300000000).2 ≠ [] := by
  decide

/-- C7 amended: in `WorkerMonitor`, an explicitly null `monitorPeriod`
means the monitor task is never started and no breach handling can ever
occur, while the log task is still started whenever `logPeriod` is not
null — and symmetrically, a null `logPeriod` disables only the log task.
In the legacy `Monitor` class, however, an explicit null falls back to
the 10000 default and the task still runs. -/
theorem null_period_disables_only_that_task (options : Options) :
    (options.monitorPeriod = JsVal.null →
      (WorkerMonitor.create options).monitorInterval = false ∧
      (∀ ticks : List (TickKind × Int),
        (runWorker (WorkerMonitor.create options) ticks).2.countP
          Event.isBreachSend = 0) ∧
      (options.logPeriod ≠ JsVal.null →
        (WorkerMonitor.create options).logInterval = true)) ∧
    (options.logPeriod = JsVal.null →
      (WorkerMonitor.create options).logInterval = false ∧
      (options.monitorPeriod ≠ JsVal.null →
        (WorkerMonitor.create options).monitorInterval = true)) ∧
    (options.monitorPeriod = JsVal.null →
      (Monitor.create options).monitorPeriod = 10000 ∧
      (Monitor.create options).monitorIntervalID = true) := by
  refine ⟨fun hmon => ⟨?_, ?_, ?_⟩, fun hlog => ⟨?_, ?_⟩, fun hmon => ⟨?_, rfl⟩⟩
  · simp [WorkerMonitor.create, hmon, jsIfUndefined, setIntervalUnlessNull]
  · intro ticks
    refine runWorker_monitor_inactive_no_breach _ ticks ?_
    simp [WorkerMonitor.create, hmon, jsIfUndefined, setIntervalUnlessNull]
  · intro hlog
    cases hv : options.logPeriod with
    | undefined => simp [WorkerMonitor.create, jsIfUndefined, setIntervalUnlessNull, hv]
    | null => exact absurd hv hlog
    | num n => simp [WorkerMonitor.create, jsIfUndefined, setIntervalUnlessNull, hv]
  · simp [WorkerMonitor.create, hlog, jsIfUndefined, setIntervalUnlessNull]
  · intro hmon
    cases hv : options.monitorPeriod with
    | undefined => simp [WorkerMonitor.create, jsIfUndefined, setIntervalUnlessNull, hv]
    | null => exact absurd hv hmon
    | num n => simp [WorkerMonitor.create, jsIfUndefined, setIntervalUnlessNull, hv]
  · simp [Monitor.create, hmon, jsOrDefault]

/-- C8 fails as stated for the legacy `Killer` deployment (one of the
claim's cited code places): the kill-timeout armed by
`Killer.disconnectWorker` is a normal referenced timer — the method has
no `unref()` call — so it does keep the arming process alive in order to
fire. -/
theorem killer_kill_timeout_is_referenced :
    (Killer.create {}).disconnectWorker.1.killTimeoutRefed = true := by
  decide

/-- C8 amended: the kill-timeout armed by
`WorkerMonitor.disconnectWorker` is unref'd (non-referenced, never holds
the arming process open), but the one armed by the legacy
`Killer.disconnectWorker` is a normal referenced timer. -/
theorem worker_monitor_kill_timeout_unref (m : WorkerMonitor) (k : Killer) :
    m.disconnectWorker.1.killTimeoutRefed = false ∧
    m.disconnectWorker.2 =
      [Event.logExceededMemory, Event.sendMessage "workerExceededMemory",
       Event.disconnectRequest, Event.armKillTimeout m.disconnectTimeout false] ∧
    k.disconnectWorker.1.killTimeoutRefed = true ∧
    k.disconnectWorker.2 =
      [Event.logExceededMemory, Event.disconnectRequest,
       Event.armKillTimeout k.disconnectTimeout true] :=
  ⟨rfl, rfl, rfl, rfl⟩

/-- C9 fails as stated: the listener that cancels the kill-timeout is
registered with the persistent `worker.on`, not a one-shot registration,
so after the first disconnect-completion event it is still registered. -/
theorem cancel_listener_stays_registered :
    (WorkerMonitor.create {}).disconnectWorker.1.cancelListenerOnce = false ∧
    (WorkerMonitor.create
        {}).disconnectWorker.1.deliverDisconnect.cancelListenerActive = true := by
  decide

/-- C9 amended: in both variants the cancel listener is a persistent
`worker.on` registration that stays registered after the first
disconnect-completion event; that first event does cancel the
kill-timeout, and delivering further disconnect events only repeats the
idempotent `clearTimeout`, leaving the episode state unchanged. -/
theorem cancel_listener_persistent_on (m : WorkerMonitor) (k : Killer) :
    m.disconnectWorker.1.cancelListenerOnce = false ∧
    k.disconnectWorker.1.cancelListenerOnce = false ∧
    m.disconnectWorker.1.deliverDisconnect.cancelListenerActive = true ∧
    m.disconnectWorker.1.deliverDisconnect.killTimeout = none ∧
    m.disconnectWorker.1.deliverDisconnect.deliverDisconnect =
      m.disconnectWorker.1.deliverDisconnect ∧
    k.disconnectWorker.1.deliverDisconnect.killTimeout = none ∧
    k.disconnectWorker.1.deliverDisconnect.deliverDisconnect =
      k.disconnectWorker.1.deliverDisconnect :=
  ⟨rfl, rfl, rfl, rfl, rfl, rfl, rfl⟩

/-- C2 fails as stated: in the current `WorkerMonitor`+`WorkerManager`
deployment, even when the worker's disconnect-completion event arrives
well before `disconnectTimeout` (100 < 5000 here), a SIGINT is still
delivered to the worker — the manager's `killAndForkOnDisconnect`
handler sends it upon the very disconnect event — so "no SIGINT is
delivered" does not hold. -/
theorem managed_disconnect_still_sigints :
    100 < (WorkerMonitor.create {}).disconnectTimeout ∧
    (managedEpisode (WorkerMonitor.create {}) (some 100)).countP
      Event.isSigintKill = 1 := by
  decide

/-- C2 amended: if the disconnect-completion event arrives strictly
before `disconnectTimeout`, the kill-timeout's forced kill never fires —
no `worker-disconnect-failed` record and no timeout-origin SIGINT — and
the kill-timeout is cancelled.  In the legacy `Killer` deployment no
SIGINT at all is sent; in the current deployment the manager's
kill-and-fork handler still sends exactly one SIGINT while retiring the
disconnected worker. -/
theorem disconnect_before_timeout_no_forced_kill
    (k : Killer) (m : WorkerMonitor) (t u : Int)
    (hk : t < k.disconnectTimeout) (hu : u < m.disconnectTimeout) :
    (killerEpisode k (some t)).countP Event.isKillEvent = 0 ∧
    (killerEpisode k (some t)).countP Event.isDisconnectFailedLog = 0 ∧
    Event.clearKillTimeout ∈ killerEpisode k (some t) ∧
    (managedEpisode m (some u)).countP Event.isForcedKill = 0 ∧
    (managedEpisode m (some u)).countP Event.isDisconnectFailedLog = 0 ∧
    Event.clearKillTimeout ∈ managedEpisode m (some u) ∧
    (managedEpisode m (some u)).countP Event.isManagerKill = 1 := by
  simp [killerEpisode, managedEpisode, hk, hu, Killer.disconnectWorker,
    WorkerMonitor.disconnectWorker, killAndForkHandler, List.countP_cons,
    List.countP_append, Event.isKillEvent, Event.isDisconnectFailedLog,
    Event.isForcedKill, Event.isManagerKill]

theorem disconnect_before_timeout_no_forced_kill_witness :
    ((killerEpisode (Killer.create {}) (some 100)).countP Event.isKillEvent = 0 ∧
    (killerEpisode (Killer.create {}) (some 100)).countP
      Event.isDisconnectFailedLog = 0 ∧
    Event.clearKillTimeout ∈ killerEpisode (Killer.create {}) (some 100) ∧
    (managedEpisode (WorkerMonitor.create {}) (some 100)).countP
      Event.isForcedKill = 0 ∧
    (managedEpisode (WorkerMonitor.create {}) (some 100)).countP
      Event.isDisconnectFailedLog = 0 ∧
    Event.clearKillTimeout ∈ managedEpisode (WorkerMonitor.create {}) (some 100) ∧
    (managedEpisode (WorkerMonitor.create {}) (some 100)).countP
      Event.isManagerKill = 1) :=
  disconnect_before_timeout_no_forced_kill (Killer.create {})
    (WorkerMonitor.create {}) 100 100 (by decide) (by decide)

/-- C3: in every breach episode in which no disconnect-completion event
arrives strictly within `disconnectTimeout` (a later event or none at
all), the one-shot kill-timeout fires exactly once, so the forced kill
runs exactly once: exactly one `worker-disconnect-failed` record is
emitted and exactly one timeout-origin kill is issued, and it delivers
SIGINT (interrupt-class), not a terminate-immediately signal — in the
legacy `Killer` deployment it is moreover the only kill of any kind. -/
theorem no_disconnect_within_timeout_forced_kill_once
    (k : Killer) (m : WorkerMonitor) (a b : Option Int)
    (ha : ∀ t : Int, a = some t → k.disconnectTimeout ≤ t)
    (hb : ∀ t : Int, b = some t → m.disconnectTimeout ≤ t) :
    (killerEpisode k a).countP Event.isDisconnectFailedLog = 1 ∧
    (killerEpisode k a).countP Event.isKillEvent = 1 ∧
    (killerEpisode k a).countP Event.isSigintKill = 1 ∧
    (managedEpisode m b).countP Event.isDisconnectFailedLog = 1 ∧
    (managedEpisode m b).countP Event.isForcedKill = 1 ∧
    Event.kill KillOrigin.killWorkerTimeout "SIGINT" ∈ managedEpisode m b := by
  have hka : ∀ t : Int, a = some t → ¬ t < k.disconnectTimeout :=
    fun t ht => not_lt.mpr (ha t ht)
  have hmb : ∀ t : Int, b = some t → ¬ t < m.disconnectTimeout :=
    fun t ht => not_lt.mpr (hb t ht)
  cases a with
  | none =>
    cases b with
    | none =>
      simp [killerEpisode, managedEpisode, Killer.disconnectWorker,
        WorkerMonitor.disconnectWorker, Killer.killWorker,
        WorkerMonitor.killWorker, killAndForkHandler, List.countP_cons,
        List.countP_append, Event.isKillEvent, Event.isDisconnectFailedLog,
        Event.isForcedKill, Event.isSigintKill]
    | some u =>
      simp [killerEpisode, managedEpisode, hmb u rfl, Killer.disconnectWorker,
        WorkerMonitor.disconnectWorker, Killer.killWorker,
        WorkerMonitor.killWorker, killAndForkHandler, List.countP_cons,
        List.countP_append, Event.isKillEvent, Event.isDisconnectFailedLog,
        Event.isForcedKill, Event.isSigintKill]
  | some t =>
    cases b with
    | none =>
      simp [killerEpisode, managedEpisode, hka t rfl, Killer.disconnectWorker,
        WorkerMonitor.disconnectWorker, Killer.killWorker,
        WorkerMonitor.killWorker, killAndForkHandler, List.countP_cons,
        List.countP_append, Event.isKillEvent, Event.isDisconnectFailedLog,
        Event.isForcedKill, Event.isSigintKill]
    | some u =>
      simp [killerEpisode, managedEpisode, hka t rfl, hmb u rfl,
        Killer.disconnectWorker, WorkerMonitor.disconnectWorker,
        Killer.killWorker, WorkerMonitor.killWorker, killAndForkHandler,
        List.countP_cons, List.countP_append, Event.isKillEvent,
        Event.isDisconnectFailedLog, Event.isForcedKill, Event.isSigintKill]

theorem no_disconnect_within_timeout_forced_kill_once_witness :
    ((killerEpisode (Killer.create {}) none).countP
      Event.isDisconnectFailedLog = 1 ∧
    (killerEpisode (Killer.create {}) none).countP Event.isKillEvent = 1 ∧
    (killerEpisode (Killer.create {}) none).countP Event.isSigintKill = 1 ∧
    (managedEpisode (WorkerMonitor.create {}) none).countP
      Event.isDisconnectFailedLog = 1 ∧
    (managedEpisode (WorkerMonitor.create {}) none).countP
      Event.isForcedKill = 1 ∧
    Event.kill KillOrigin.killWorkerTimeout "SIGINT" ∈
      managedEpisode (WorkerMonitor.create {}) none) :=
  no_disconnect_within_timeout_forced_kill_once (Killer.create {})
    (WorkerMonitor.create {}) none none
    (fun _ ht => nomatch ht) (fun _ ht => nomatch ht)

/-! ### Helper lemmas about the manager-side listeners -/

theorem managerRun_quiet (s : ManagerState) (tr : List ManagerInput)
    (h1 : tr.countP ManagerInput.isBreachMsg = 0)
    (h2 : tr.countP ManagerInput.isDisconnect = 0) :
    WorkerManager.run s tr = (s, []) := by
  induction tr generalizing s with
  | nil => rfl
  | cons i is ih =>
    rw [List.countP_cons] at h1 h2
    cases i with
    | message tag =>
      have htag : ¬ tag = "workerExceededMemory" := by
        intro hc
        simp [ManagerInput.isBreachMsg, hc] at h1
      have h1' : is.countP ManagerInput.isBreachMsg = 0 := by omega
      have h2' : is.countP ManagerInput.isDisconnect = 0 := by omega
      simp [WorkerManager.run, WorkerManager.step, htag, ih _ h1' h2']
    | disconnectEvent =>
      simp [ManagerInput.isDisconnect] at h2

theorem managerRun_append (s : ManagerState) (xs ys : List ManagerInput) :
    WorkerManager.run s (xs ++ ys) =
      ((WorkerManager.run (WorkerManager.run s xs).1 ys).1,
       (WorkerManager.run s xs).2 ++
         (WorkerManager.run (WorkerManager.run s xs).1 ys).2) := by
  induction xs generalizing s with
  | nil => simp [WorkerManager.run]
  | cons i is ih => simp [WorkerManager.run, ih, List.append_assoc]

theorem managerRun_cons (s : ManagerState) (i : ManagerInput)
    (is : List ManagerInput) :
    WorkerManager.run s (i :: is) =
      ((WorkerManager.run (WorkerManager.step s i).1 is).1,
       (WorkerManager.step s i).2 ++
         (WorkerManager.run (WorkerManager.step s i).1 is).2) := rfl

theorem managerStep_breach_msg :
    WorkerManager.step ⟨0⟩ (ManagerInput.message "workerExceededMemory") =
      (⟨1⟩, []) := by
  decide

theorem managerStep_disconnect_one :
    WorkerManager.step ⟨1⟩ ManagerInput.disconnectEvent =
      (⟨1⟩, killAndForkHandler) := by
  decide

/-- C5: a worker retired after a breach — its listeners see exactly one
`'workerExceededMemory'` message and, after it, exactly one
`'disconnect'` event marking the worker's exit, and nothing else of
either kind — gets exactly one replacement `cluster.fork()` (no
duplicate forks, no missing fork) and exactly one
`worker-disconnected-and-killed` counter record. -/
theorem one_fork_per_retired_worker (pre mid post : List ManagerInput)
    (hp1 : pre.countP ManagerInput.isBreachMsg = 0)
    (hp2 : pre.countP ManagerInput.isDisconnect = 0)
    (hm1 : mid.countP ManagerInput.isBreachMsg = 0)
    (hm2 : mid.countP ManagerInput.isDisconnect = 0)
    (ho1 : post.countP ManagerInput.isBreachMsg = 0)
    (ho2 : post.countP ManagerInput.isDisconnect = 0) :
    (WorkerManager.run ⟨0⟩
        (pre ++ ManagerInput.message "workerExceededMemory" ::
          (mid ++ ManagerInput.disconnectEvent :: post))).2.countP
      Event.isFork = 1 ∧
    (WorkerManager.run ⟨0⟩
        (pre ++ ManagerInput.message "workerExceededMemory" ::
          (mid ++ ManagerInput.disconnectEvent :: post))).2.countP
      Event.isKilledLog = 1 := by
  have e1 := managerRun_quiet (⟨0⟩ : ManagerState) pre hp1 hp2
  have e2 := managerRun_quiet (⟨1⟩ : ManagerState) mid hm1 hm2
  have e3 := managerRun_quiet (⟨1⟩ : ManagerState) post ho1 ho2
  constructor
  · simp [managerRun_append, managerRun_cons, e1, e2, e3,
      managerStep_breach_msg, managerStep_disconnect_one, killAndForkHandler,
      List.countP_cons, List.countP_append, Event.isFork]
  · simp [managerRun_append, managerRun_cons, e1, e2, e3,
      managerStep_breach_msg, managerStep_disconnect_one, killAndForkHandler,
      List.countP_cons, List.countP_append, Event.isKilledLog]

theorem one_fork_per_retired_worker_witness :
    ((WorkerManager.run ⟨0⟩
        ([] ++ ManagerInput.message "workerExceededMemory" ::
          ([] ++ ManagerInput.disconnectEvent :: []))).2.countP
      Event.isFork = 1 ∧
    (WorkerManager.run ⟨0⟩
        ([] ++ ManagerInput.message "workerExceededMemory" ::
          ([] ++ ManagerInput.disconnectEvent :: []))).2.countP
      Event.isKilledLog = 1) :=
  one_fork_per_retired_worker [] [] [] rfl rfl rfl rfl rfl rfl

/-! ### Helper lemmas for the kill-timeout invariant -/

theorem legacy_monitor_breach_sendCount (mon : Monitor) (rss : Int) :
    (mon.monitor rss).2.countP Event.isBreachSend =
      if mon.memoryLimit < rss then 1 else 0 := by
  by_cases h : mon.memoryLimit < rss
  · simp [Monitor.monitor, h, List.countP_cons, Event.isBreachSend]
  · simp [Monitor.monitor, h]

theorem legacy_monitor_breach_intervalID (mon : Monitor) (rss : Int) :
    (mon.monitor rss).1.monitorIntervalID =
      if mon.memoryLimit < rss then false else mon.monitorIntervalID := by
  by_cases h : mon.memoryLimit < rss
  · simp [Monitor.monitor, h, clearInterval]
  · simp [Monitor.monitor, h]

theorem sysInv_step {s t : SysState} (hinv : SysInv s) (hst : SysStep s t) :
    SysInv t := by
  unfold SysInv at hinv ⊢
  obtain ⟨h1, h2⟩ := hinv
  cases hst with
  | monitorTick rss h =>
    have hz := h1 h
    dsimp only
    by_cases hb : s.mon.memoryLimit < rss
    · refine ⟨fun htrue => ?_, ?_⟩
      · rw [legacy_monitor_breach_intervalID] at htrue
        simp [hb] at htrue
      · rw [legacy_monitor_breach_sendCount]
        simp [hb, hz.1, hz.2]
    · refine ⟨fun _ => by simp [hz.1, hz.2, legacy_monitor_breach_sendCount, hb], ?_⟩
      rw [legacy_monitor_breach_sendCount]
      simp [hb]
      omega
  | deliverBreach h =>
    dsimp only
    refine ⟨fun htrue => ?_, ?_⟩
    · have := h1 htrue
      omega
    · omega
  | timeoutFires h =>
    dsimp only
    refine ⟨fun htrue => ?_, ?_⟩
    · have := h1 htrue
      omega
    · omega
  | disconnectEvent =>
    dsimp only
    refine ⟨fun htrue => ⟨(h1 htrue).1, rfl⟩, ?_⟩
    omega

theorem sysInv_reachable {s : SysState} (h : SysReachable s) : SysInv s := by
  induction h with
  | start options =>
    exact ⟨fun _ => ⟨rfl, rfl⟩, by simp⟩
  | step hs hst ih => exact sysInv_step ih hst

/-- C6: at every reachable state of the supervision protocol — under
every sequence of breach messages the manager-side listener may receive,
namely those the worker-side monitor can actually produce and the
channel deliver — at most one kill-timeout is armed (not yet fired nor
cancelled) for the worker. -/
theorem at_most_one_armed_kill_timeout {s : SysState}
    (h : SysReachable s) : s.armedTimeouts ≤ 1 :=
  le_trans (Nat.le_add_left _ _) (sysInv_reachable h).2

theorem at_most_one_armed_kill_timeout_witness :
    ({ mon := Monitor.create {}, inFlight := 0, armedTimeouts := 0 } :
      SysState).armedTimeouts ≤ 1 :=
  at_most_one_armed_kill_timeout (SysReachable.start {})

end WorkerMonitorModel
